import Mathlib

/-!
Shallow embedding of the LoRaWAN waterlogging simulation engine
(`src/simulation/lorawan_stack.py`, `src/simulation/wireless_channel.py`,
`src/simulation/simulator_runner.py`, constants from `src/core/config.py`).

Simulated time is modelled in whole seconds as `Int` (Python `datetime` /
`timedelta` arithmetic).  Randomness (shadowing draw, delivery draw, traffic
generator) is modelled by explicit oracle inputs.  Real-number arithmetic of
the channel model is embedded over `ℝ`.
-/

namespace LorawanSim

/-- `WIRELESS_CONFIG["PL0"]`: reference path loss at `d0`, in dB. -/
def PL0 : ℝ := 40

/-- `WIRELESS_CONFIG["d0"]`: reference distance in meters. -/
def d0 : ℝ := 1

/-- `WIRELESS_CONFIG["path_loss_exponent"]`. -/
def pathLossExponent : ℝ := 3.5

/-- `WIRELESS_CONFIG["noise_floor_dbm"]`. -/
def noiseFloorDbm : ℝ := -174

/-- `WIRELESS_CONFIG["gateway_latitude"]`. -/
def gatewayLatitude : ℝ := 23.8103

/-- `WIRELESS_CONFIG["gateway_longitude"]`. -/
def gatewayLongitude : ℝ := 90.4125

/-- `LORAWAN_CONFIG["max_messages_per_hour"]`. -/
def maxMessagesPerHour : Nat := 10

/-- `LORAWAN_CONFIG["transmission_interval"]` in simulated seconds. -/
def transmissionInterval : Int := 300

/-- `LORAWAN_CONFIG["collision_window"]` in simulated seconds. -/
def collisionWindow : Int := 2

/-- `APP_CONFIG["device_offline_threshold_minutes"]` converted to seconds
(`timedelta(minutes=30)`). -/
def offlineThresholdSeconds : Int := 1800

/-- One simulated hour (`timedelta(hours=1)`) in seconds. -/
def hourSeconds : Int := 3600

/-! ## MacLayer: `LoRaWANStack` (src/simulation/lorawan_stack.py) -/

/-- One entry of `LoRaWANStack.transmission_history`
(the dict `{"device_id": ..., "spreading_factor": ..., "time": ...}`). -/
structure Tx where
  deviceId : Nat
  spreadingFactor : Int
  time : Int
deriving DecidableEq, Repr

/-- State of `LoRaWANStack`: `transmission_history` plus the per-device
duty-cycle ledger `device_message_counts`, modelled as an association list. -/
structure Stack where
  transmissionHistory : List Tx
  deviceMessageCounts : List (Nat × List Int)
deriving DecidableEq, Repr

/-- `LoRaWANStack.__init__` / `LoRaWANStack.reset`: both ledgers empty. -/
def Stack.init : Stack := ⟨[], []⟩

/-- Update (or insert) the entry for key `k` in an association list —
models Python dict assignment `m[k] = v`. -/
def setEntry {α : Type} : List (Nat × α) → Nat → α → List (Nat × α)
  | [], k, v => [(k, v)]
  | (k', v') :: rest, k, v =>
    if k' = k then (k, v) :: rest else (k', v') :: setEntry rest k v

/-- `self.device_message_counts[d]`, with the Python convention that a
missing key behaves as the empty list (the code inserts `[]` on demand). -/
def getLedger (s : Stack) (d : Nat) : List Int :=
  (s.deviceMessageCounts.lookup d).getD []

/-- `LoRaWANStack.check_duty_cycle`: prune the device's ledger to the last
simulated hour (`msg_time > current_time - 1h`, strict), store the pruned
ledger back, and report whether the remaining count is below
`max_messages_per_hour`.  Returns the boolean together with the mutated
stack state. -/
def check_duty_cycle (d : Nat) (now : Int) (s : Stack) : Bool × Stack :=
  let pruned := (getLedger s d).filter (fun t => decide (now - hourSeconds < t))
  (decide (pruned.length < maxMessagesPerHour),
   { s with deviceMessageCounts := setEntry s.deviceMessageCounts d pruned })

/-- `LoRaWANStack.detect_collision`: true iff some recorded transmission of a
different device with the same spreading factor lies in the closed window
`[now - collision_window, now + collision_window]`.  Pure: does not mutate. -/
def detect_collision (d : Nat) (sf : Int) (now : Int) (s : Stack) : Bool :=
  s.transmissionHistory.any (fun tx =>
    decide (tx.deviceId ≠ d) && decide (tx.spreadingFactor = sf) &&
    decide (now - collisionWindow ≤ tx.time) &&
    decide (tx.time ≤ now + collisionWindow))

/-- `LoRaWANStack.process_uplink`: duty-cycle check first (early return
`(False, True)` on failure, with the ledger already pruned by the check);
otherwise run the collision check, append the transmission to
`transmission_history` and to the device's ledger regardless of the collision
outcome, then prune `transmission_history` to the last hour. -/
def process_uplink (d : Nat) (sf : Int) (now : Int) (s : Stack) :
    (Bool × Bool) × Stack :=
  let dutyRes := check_duty_cycle d now s
  let s1 := dutyRes.2
  if dutyRes.1 = false then ((false, true), s1)
  else
    let collision := detect_collision d sf now s1
    let s2 := { s1 with
      transmissionHistory := s1.transmissionHistory ++ [(⟨d, sf, now⟩ : Tx)] }
    let s3 := { s2 with
      deviceMessageCounts := setEntry s2.deviceMessageCounts d (getLedger s2 d ++ [now]) }
    let s4 := { s3 with
      transmissionHistory :=
        s3.transmissionHistory.filter (fun tx => decide (now - hourSeconds < tx.time)) }
    ((dutyRes.1, !collision), s4)

/-- `LoRaWANStack.get_airtime_ms`: per-SF airtime table from
`SF_CHARACTERISTICS`, default `100.0` for unknown spreading factors. -/
def get_airtime_ms (sf : Int) : ℝ :=
  if sf = 7 then 41
  else if sf = 8 then 72
  else if sf = 9 then 144
  else if sf = 10 then 288
  else if sf = 11 then 577
  else if sf = 12 then 1155
  else 100

/-! ## ChannelModel (src/simulation/wireless_channel.py) -/

/-- Degrees to radians, `math.radians`. -/
noncomputable def radians (x : ℝ) : ℝ := x * Real.pi / 180

/-- Python's `math.atan2(y, x)`: quadrant-aware arctangent. -/
noncomputable def atan2 (y x : ℝ) : ℝ :=
  if 0 < x then Real.arctan (y / x)
  else if x < 0 ∧ 0 ≤ y then Real.arctan (y / x) + Real.pi
  else if x < 0 ∧ y < 0 then Real.arctan (y / x) - Real.pi
  else if x = 0 ∧ 0 < y then Real.pi / 2
  else if x = 0 ∧ y < 0 then -(Real.pi / 2)
  else 0

/-- `calculate_distance`: haversine great-circle distance in meters on a
sphere of radius 6,371,000 m (`math.atan2(√a, √(1-a))`). -/
noncomputable def calculate_distance (lat1 lon1 lat2 lon2 : ℝ) : ℝ :=
  let R : ℝ := 6371000
  let phi1 := radians lat1
  let phi2 := radians lat2
  let dphi := radians (lat2 - lat1)
  let dlambda := radians (lon2 - lon1)
  let a := Real.sin (dphi / 2) ^ 2 +
    Real.cos phi1 * Real.cos phi2 * Real.sin (dlambda / 2) ^ 2
  let c := 2 * atan2 (Real.sqrt a) (Real.sqrt (1 - a))
  R * c

/-- `calculate_path_loss` with the shadowing draw `X ~ gauss(0, sigma)` made
an explicit input: clamp the distance to `d0`, apply the log-distance formula
`PL0 + 10·n·log10(d/d0)`, and add the shadowing draw. -/
noncomputable def calculate_path_loss (distance_m : ℝ) (path_loss_exponent : ℝ)
    (X_sigma : ℝ) : ℝ :=
  let d := if distance_m < d0 then d0 else distance_m
  PL0 + 10 * path_loss_exponent * Real.logb 10 (d / d0) + X_sigma

/-- `calculate_snr`: received power (tx − path loss) minus the noise floor. -/
def calculate_snr (tx_power_dbm path_loss_db noise_floor_dbm : ℝ) : ℝ :=
  (tx_power_dbm - path_loss_db) - noise_floor_dbm

/-- `calculate_rssi`: tx power minus path loss. -/
def calculate_rssi (tx_power_dbm path_loss_db : ℝ) : ℝ :=
  tx_power_dbm - path_loss_db

/-- The `sensitivity_thresholds` dict of `calculate_per`: per-SF minimum SNR,
`None` for spreading factors outside 7–12. -/
def sensitivityThreshold (sf : Int) : Option ℝ :=
  if sf = 7 then some (-7.5)
  else if sf = 8 then some (-10)
  else if sf = 9 then some (-12.5)
  else if sf = 10 then some (-15)
  else if sf = 11 then some (-17.5)
  else if sf = 12 then some (-20)
  else none

/-- `calculate_per`: worst-case `1.0` for an unknown spreading factor;
below the threshold a logistic curve `1/(1+e^(2·margin))`, at or above it an
exponential decay `0.01·e^(−0.5·margin)`; result clamped to `[0,1]` by
`min(1.0, max(0.0, per))`. -/
noncomputable def calculate_per (snr_db : ℝ) (sf : Int) : ℝ :=
  match sensitivityThreshold sf with
  | none => 1
  | some threshold =>
    let per :=
      if snr_db < threshold then
        1 / (1 + Real.exp (2 * (snr_db - threshold)))
      else
        0.01 * Real.exp (-0.5 * (snr_db - threshold))
    min 1 (max 0 per)

/-- `is_packet_delivered` with the uniform draw `random.random()` made an
explicit input: delivered iff the draw strictly exceeds the PER. -/
noncomputable def is_packet_delivered (rand : ℝ) (snr_db : ℝ) (sf : Int) : Bool :=
  decide (calculate_per snr_db sf < rand)

/-! ## SimulationRunner (src/simulation/simulator_runner.py) -/

/-- `DeviceStatus` enum from `src/models/device.py`. -/
inductive DeviceStatus where
  | online
  | offline
  | maintenance
deriving DecidableEq, Repr

/-- The fields of the `Device` entity read or written by the runner. -/
structure Device where
  id : Nat
  latitude : ℝ
  longitude : ℝ
  spreadingFactor : Int
  txPowerDbm : ℝ
  status : DeviceStatus
  lastSeen : Option Int

/-- The `Reading` record emitted by the runner (`src/models/reading.py`). -/
structure Reading where
  deviceId : Nat
  timestamp : Int
  waterLevelCm : ℝ
  snrDb : ℝ
  rssiDbm : ℝ
  packetDelivered : Bool

/-- The slice of the database the runner touches: device rows and the
appended reading rows. -/
structure Db where
  devices : List Device
  readings : List Reading

/-- In-memory state of `SimulatorRunner`: the LoRaWAN stack, the simulated
clock, the running flag, and the three per-device caches. -/
structure RunnerState where
  stack : Stack
  currentTime : Int
  isRunning : Bool
  deviceLastLevels : List (Nat × ℝ)
  deviceLastSeen : List (Nat × Int)
  waterLevelOverrides : List (Nat × ℝ)

/-- The random draws consumed by one `step` call, made explicit:
`gen` is `generate_water_level` as a function of the previous level,
`shadow`/`deliveryRand` give each device's shadowing and delivery draws. -/
structure Draws where
  gen : Option ℝ → ℝ
  shadow : Nat → ℝ
  deliveryRand : Nat → ℝ

/-- `SimulatorRunner._update_device_status`: unseen devices stay ONLINE
(grace period); otherwise OFFLINE iff the staleness strictly exceeds the
30-minute threshold. -/
def updateDeviceStatus (now : Int) (lastSeen : Option Int) : DeviceStatus :=
  match lastSeen with
  | none => DeviceStatus.online
  | some t =>
    if offlineThresholdSeconds < now - t then DeviceStatus.offline
    else DeviceStatus.online

/-- The body of the per-device loop of `SimulatorRunner.step`: choose the
water level (override or traffic generator), compute distance / path loss /
SNR / RSSI, run `process_uplink`, decide delivery, build the `Reading`,
update `last_seen` on delivery, and recompute the device status. -/
noncomputable def processDevice (dr : Draws) (st : RunnerState) (dev : Device) :
    Reading × Device × RunnerState :=
  let waterLevel :=
    match st.waterLevelOverrides.lookup dev.id with
    | some v => v
    | none => dr.gen (st.deviceLastLevels.lookup dev.id)
  let st1 := { st with
    deviceLastLevels := setEntry st.deviceLastLevels dev.id waterLevel }
  let distance_m := calculate_distance dev.latitude dev.longitude
    gatewayLatitude gatewayLongitude
  let path_loss := calculate_path_loss distance_m pathLossExponent (dr.shadow dev.id)
  let snr := calculate_snr dev.txPowerDbm path_loss noiseFloorDbm
  let rssi := calculate_rssi dev.txPowerDbm path_loss
  let uplink := process_uplink dev.id dev.spreadingFactor st1.currentTime st1.stack
  let duty_cycle_ok := uplink.1.1
  let no_collision := uplink.1.2
  let packet_delivered :=
    if duty_cycle_ok && no_collision then
      is_packet_delivered (dr.deliveryRand dev.id) snr dev.spreadingFactor
    else false
  let reading : Reading :=
    ⟨dev.id, st1.currentTime, waterLevel, snr, rssi, packet_delivered⟩
  let dev1 :=
    if packet_delivered then { dev with lastSeen := some st1.currentTime } else dev
  let st2 :=
    if packet_delivered then
      { st1 with
          stack := uplink.2
          deviceLastSeen := setEntry st1.deviceLastSeen dev.id st1.currentTime }
    else { st1 with stack := uplink.2 }
  let dev2 := { dev1 with status := updateDeviceStatus st2.currentTime dev1.lastSeen }
  (reading, dev2, st2)

/-- Merge the updated device rows back over the stored rows by id (the ORM
session mutates device objects in place; on commit the mutations persist). -/
def mergeDevices (stored updated : List Device) : List Device :=
  stored.map (fun d => (updated.find? (fun u => u.id == d.id)).getD d)

/-- One iteration of the per-device loop of `SimulatorRunner.step`,
accumulating the emitted readings and updated device rows. -/
noncomputable def stepFold (dr : Draws)
    (acc : List Reading × List Device × RunnerState) (dev : Device) :
    List Reading × List Device × RunnerState :=
  let r := processDevice dr acc.2.2 dev
  (acc.1 ++ [r.1], acc.2.1 ++ [r.2.1], r.2.2)

/-- `SimulatorRunner.step`, with the commit outcome of the external session
made an explicit input `commitFails`.  Returns the exception (if any) that
escapes to the caller — the code catches the commit error, logs it and rolls
back without re-raising, so the first component is always `Except.ok ()` —
together with the new runner state and the new database contents. -/
noncomputable def step (dr : Draws) (timeDeltaSeconds : Option Int) (force : Bool)
    (commitFails : Bool) (st : RunnerState) (db : Db) :
    Except String Unit × RunnerState × Db :=
  if !st.isRunning && !force then (Except.ok (), st, db)
  else
    let delta := timeDeltaSeconds.getD transmissionInterval
    let st1 := { st with currentTime := st.currentTime + delta }
    let onlineDevices := db.devices.filter (fun d => decide (d.status = DeviceStatus.online))
    let processed := onlineDevices.foldl (stepFold dr) ([], [], st1)
    if commitFails then
      (Except.ok (), processed.2.2, db)
    else
      (Except.ok (), processed.2.2,
       ⟨mergeDevices db.devices processed.2.1, db.readings ++ processed.1⟩)

/-- `SimulatorRunner.reset`: clear the stack and the per-device caches,
reset the clock to the (external) current wall time; the override map and
`is_running` are untouched. -/
def reset (wallNow : Int) (st : RunnerState) : RunnerState :=
  { st with
      stack := Stack.init
      deviceLastLevels := []
      deviceLastSeen := []
      currentTime := wallNow }

/-! ## Iterated uplinks and concrete sample data used by the theorems -/

/-- Run `process_uplink` once per time in the list (one device, one spreading
factor), reporting whether every call had `duty_cycle_ok = True` together with
the final stack state. -/
def runUplinks (d : Nat) (sf : Int) : List Int → Stack → Bool × Stack
  | [], s => (true, s)
  | t :: ts, s =>
    let r := process_uplink d sf t s
    let rest := runUplinks d sf ts r.2
    (r.1.1 && rest.1, rest.2)

/-- A deterministic instantiation of the random draws (traffic generator
always 10 cm, zero shadowing, zero delivery draw). -/
def sampleDraws : Draws := ⟨fun _ => 10, fun _ => 0, fun _ => 0⟩

/-- A concrete device colocated with the gateway. -/
def sampleDevice : Device :=
  ⟨1, 23.8103, 90.4125, 7, 14, DeviceStatus.online, none⟩

/-- A concrete runner state with a 60 cm override installed for device 1. -/
def sampleState : RunnerState :=
  ⟨Stack.init, 0, true, [], [], [(1, 60)]⟩

/-- A concrete database holding the single sample device and no readings. -/
def sampleDb : Db := ⟨[sampleDevice], []⟩

/-! ## Helper lemmas about the association-list ledger -/

theorem lookup_setEntry_self {α : Type} (m : List (Nat × α)) (k : Nat) (v : α) :
    (setEntry m k v).lookup k = some v := by
  induction m with
  | nil => simp [setEntry, List.lookup]
  | cons p rest ih =>
    obtain ⟨k', v'⟩ := p
    by_cases h : k' = k
    · simp [setEntry, h, List.lookup]
    · simp only [setEntry, if_neg h, List.lookup]
      have hne : (k == k') = false := by
        simp [beq_iff_eq]
        exact fun hk => h hk.symm
      simp [hne, ih]

theorem getLedger_setEntry (s : Stack) (m : List (Nat × List Int)) (d : Nat)
    (v : List Int) :
    getLedger { s with deviceMessageCounts := setEntry m d v } d = v := by
  simp [getLedger, lookup_setEntry_self]

/-! ## Helper lemmas about `check_duty_cycle` and `process_uplink` -/

theorem check_duty_cycle_fst (d : Nat) (now : Int) (s : Stack) :
    (check_duty_cycle d now s).1 =
      decide (((getLedger s d).filter
        (fun t => decide (now - hourSeconds < t))).length < maxMessagesPerHour) := rfl

theorem check_duty_cycle_history (d : Nat) (now : Int) (s : Stack) :
    (check_duty_cycle d now s).2.transmissionHistory = s.transmissionHistory := rfl

theorem check_duty_cycle_ledger (d : Nat) (now : Int) (s : Stack) :
    getLedger (check_duty_cycle d now s).2 d =
      (getLedger s d).filter (fun t => decide (now - hourSeconds < t)) := by
  simp [check_duty_cycle, getLedger, lookup_setEntry_self]

theorem process_uplink_fail (d : Nat) (sf : Int) (now : Int) (s : Stack)
    (h : (check_duty_cycle d now s).1 = false) :
    process_uplink d sf now s = ((false, true), (check_duty_cycle d now s).2) := by
  simp [process_uplink, h]

theorem process_uplink_ok_fst (d : Nat) (sf : Int) (now : Int) (s : Stack)
    (h : (check_duty_cycle d now s).1 = true) :
    (process_uplink d sf now s).1 = (true, !detect_collision d sf now s) := by
  simp [process_uplink, h]
  rfl

theorem process_uplink_ok_history (d : Nat) (sf : Int) (now : Int) (s : Stack)
    (h : (check_duty_cycle d now s).1 = true) :
    (process_uplink d sf now s).2.transmissionHistory =
      (s.transmissionHistory ++ [(⟨d, sf, now⟩ : Tx)]).filter
        (fun tx => decide (now - hourSeconds < tx.time)) := by
  simp [process_uplink, h]
  rfl

theorem process_uplink_ok_ledger (d : Nat) (sf : Int) (now : Int) (s : Stack)
    (h : (check_duty_cycle d now s).1 = true) :
    getLedger (process_uplink d sf now s).2 d =
      (getLedger s d).filter (fun t => decide (now - hourSeconds < t)) ++ [now] := by
  simp only [process_uplink, h, if_pos, Bool.true_eq_false, if_neg, Bool.not_eq_true]
  simp [check_duty_cycle, getLedger, lookup_setEntry_self]

/-! ## Claim C1 -/

/-- C1: the reading emitted by the per-device step body is marked delivered
exactly when the duty-cycle check passed, the collision check passed, and the
stochastic channel delivery decision succeeded — so a reading is never marked
delivered when either MAC check failed. -/
theorem C1_delivery_conjunction (dr : Draws) (st : RunnerState) (dev : Device) :
    (processDevice dr st dev).1.packetDelivered =
      ((process_uplink dev.id dev.spreadingFactor st.currentTime st.stack).1.1 &&
       (process_uplink dev.id dev.spreadingFactor st.currentTime st.stack).1.2 &&
       is_packet_delivered (dr.deliveryRand dev.id)
         (calculate_snr dev.txPowerDbm
           (calculate_path_loss
             (calculate_distance dev.latitude dev.longitude gatewayLatitude gatewayLongitude)
             pathLossExponent (dr.shadow dev.id))
           noiseFloorDbm)
         dev.spreadingFactor) := by
  simp only [processDevice]
  cases h1 : (process_uplink dev.id dev.spreadingFactor st.currentTime st.stack).1.1 <;>
    cases h2 : (process_uplink dev.id dev.spreadingFactor st.currentTime st.stack).1.2 <;>
    simp [h1, h2]

/-! ## Claim C2 -/

/-- C2: when the duty-cycle check fails, `process_uplink` returns
`(false, true)` and records nothing (the transmission history is unchanged and
the device's ledger is merely pruned); when it succeeds, the collision check
runs and the pair `(true, ¬collision)` is returned, the transmission is
appended to both the collision history and the per-device ledger regardless of
the collision outcome, and afterwards the transmission history holds no entry
older than one simulated hour before `now`. -/
theorem C2_process_uplink_contract (d : Nat) (sf : Int) (now : Int) (s : Stack) :
    ((check_duty_cycle d now s).1 = false →
      (process_uplink d sf now s).1 = (false, true) ∧
      (process_uplink d sf now s).2.transmissionHistory = s.transmissionHistory ∧
      getLedger (process_uplink d sf now s).2 d =
        (getLedger s d).filter (fun t => decide (now - hourSeconds < t))) ∧
    ((check_duty_cycle d now s).1 = true →
      (process_uplink d sf now s).1 = (true, !detect_collision d sf now s) ∧
      (process_uplink d sf now s).2.transmissionHistory =
        (s.transmissionHistory ++ [(⟨d, sf, now⟩ : Tx)]).filter
          (fun tx => decide (now - hourSeconds < tx.time)) ∧
      getLedger (process_uplink d sf now s).2 d =
        (getLedger s d).filter (fun t => decide (now - hourSeconds < t)) ++ [now] ∧
      ∀ tx ∈ (process_uplink d sf now s).2.transmissionHistory,
        now - tx.time < hourSeconds) := by
  constructor
  · intro h
    rw [process_uplink_fail d sf now s h]
    exact ⟨rfl, check_duty_cycle_history d now s, check_duty_cycle_ledger d now s⟩
  · intro h
    refine ⟨process_uplink_ok_fst d sf now s h,
      process_uplink_ok_history d sf now s h,
      process_uplink_ok_ledger d sf now s h, ?_⟩
    intro tx htx
    rw [process_uplink_ok_history d sf now s h] at htx
    have := List.of_mem_filter htx
    simp at this
    omega

/-- Claim C2 witness: a concrete successful uplink (fresh stack, device 1,
SF 7, time 0) recorded into both ledgers. -/
theorem C2_witness :
    (check_duty_cycle 1 0 Stack.init).1 = true ∧
    ((process_uplink 1 7 0 Stack.init).1 = (true, !detect_collision 1 7 0 Stack.init) ∧
      (process_uplink 1 7 0 Stack.init).2.transmissionHistory =
        (Stack.init.transmissionHistory ++ [(⟨1, 7, 0⟩ : Tx)]).filter
          (fun tx => decide ((0 : Int) - hourSeconds < tx.time)) ∧
      getLedger (process_uplink 1 7 0 Stack.init).2 1 =
        (getLedger Stack.init 1).filter (fun t => decide ((0 : Int) - hourSeconds < t)) ++ [0] ∧
      ∀ tx ∈ (process_uplink 1 7 0 Stack.init).2.transmissionHistory,
        0 - tx.time < hourSeconds) :=
  ⟨by decide, (C2_process_uplink_contract 1 7 0 Stack.init).2 (by decide)⟩

/-! ## Claim C4 -/

/-- C4: `detect_collision` is true exactly when some other device's recorded
transmission with the same spreading factor lies within ±2 simulated seconds
of `now`; transmissions with a different spreading factor never collide, and a
device's own transmissions never collide with itself. -/
theorem C4_detect_collision_iff (d : Nat) (sf : Int) (now : Int) (s : Stack) :
    (detect_collision d sf now s = true ↔
      ∃ tx ∈ s.transmissionHistory, tx.deviceId ≠ d ∧ tx.spreadingFactor = sf ∧
        now - collisionWindow ≤ tx.time ∧ tx.time ≤ now + collisionWindow) ∧
    ((∀ tx ∈ s.transmissionHistory, tx.spreadingFactor ≠ sf) →
      detect_collision d sf now s = false) ∧
    ((∀ tx ∈ s.transmissionHistory, tx.deviceId = d) →
      detect_collision d sf now s = false) := by
  have hiff : detect_collision d sf now s = true ↔
      ∃ tx ∈ s.transmissionHistory, tx.deviceId ≠ d ∧ tx.spreadingFactor = sf ∧
        now - collisionWindow ≤ tx.time ∧ tx.time ≤ now + collisionWindow := by
    simp [detect_collision, List.any_eq_true, and_assoc]
  refine ⟨hiff, ?_, ?_⟩
  · intro hsf
    rw [Bool.eq_false_iff]
    intro htrue
    obtain ⟨tx, htx, _, hsf', _⟩ := hiff.mp htrue
    exact hsf tx htx hsf'
  · intro hown
    rw [Bool.eq_false_iff]
    intro htrue
    obtain ⟨tx, htx, hne, _⟩ := hiff.mp htrue
    exact hne (hown tx htx)

/-- Claim C4 witness: with an empty history there is no collision, and a
device's own recorded transmission does not collide with itself. -/
theorem C4_witness :
    detect_collision 1 7 0 Stack.init = false ∧
    detect_collision 3 8 5 (⟨[⟨3, 8, 5⟩], []⟩ : Stack) = false :=
  ⟨(C4_detect_collision_iff 1 7 0 Stack.init).2.1 (by simp [Stack.init]),
   (C4_detect_collision_iff 3 8 5 _).2.2 (by simp)⟩

/-! ## Claim C3 -/

/-- Iterating `process_uplink` for one device over transmission times that
pairwise lie within one hour of each other, starting from a ledger whose
entries are all within one hour of every upcoming time, succeeds at every
call and accumulates every time into the device's ledger. -/
theorem runUplinks_ok (d : Nat) (sf : Int) :
    ∀ (ts : List Int) (s : Stack),
      (∀ x ∈ getLedger s d, ∀ u ∈ ts, u - x < hourSeconds) →
      ts.Pairwise (fun a b => b - a < hourSeconds) →
      (getLedger s d).length + ts.length ≤ maxMessagesPerHour →
      (runUplinks d sf ts s).1 = true ∧
      getLedger (runUplinks d sf ts s).2 d = getLedger s d ++ ts := by
  intro ts
  induction ts with
  | nil =>
    intro s _ _ _
    exact ⟨rfl, by simp [runUplinks]⟩
  | cons t ts ih =>
    intro s hwin hpair hlen
    have hfilter : (getLedger s d).filter (fun x => decide (t - hourSeconds < x)) =
        getLedger s d := by
      apply List.filter_eq_self.mpr
      intro x hx
      have := hwin x hx t (by simp)
      simp only [decide_eq_true_eq]
      omega
    have hduty : (check_duty_cycle d t s).1 = true := by
      rw [check_duty_cycle_fst, hfilter]
      simp only [decide_eq_true_eq, List.length_cons] at hlen ⊢
      omega
    have hledger : getLedger (process_uplink d sf t s).2 d = getLedger s d ++ [t] := by
      rw [process_uplink_ok_ledger d sf t s hduty, hfilter]
    have hfst : (process_uplink d sf t s).1.1 = true := by
      rw [process_uplink_ok_fst d sf t s hduty]
    have hpairc := List.pairwise_cons.mp hpair
    have hwin' : ∀ x ∈ getLedger (process_uplink d sf t s).2 d, ∀ u ∈ ts,
        u - x < hourSeconds := by
      rw [hledger]
      intro x hx u hu
      rcases List.mem_append.mp hx with h1 | h2
      · exact hwin x h1 u (by simp [hu])
      · simp only [List.mem_singleton] at h2
        subst h2
        exact hpairc.1 u hu
    have hlen' : (getLedger (process_uplink d sf t s).2 d).length + ts.length ≤
        maxMessagesPerHour := by
      rw [hledger]
      simp only [List.length_append, List.length_singleton, List.length_cons,
        List.length_nil] at hlen ⊢
      omega
    obtain ⟨hok, hled⟩ := ih (process_uplink d sf t s).2 hwin' hpairc.2 hlen'
    constructor
    · simp [runUplinks, hfst, hok]
    · simp [runUplinks, hled, hledger]

/-- C3: after exactly `max_messages_per_hour = 10` successful uplinks of one
device within a single simulated hour, the next duty-cycle check at a time
within the hour of all of them returns false; at a time more than one hour
past every recorded transmission it returns true again (the stale entries are
pruned). -/
theorem C3_duty_cycle_throttling (d : Nat) (sf : Int) (ts : List Int)
    (now now2 : Int)
    (hlen : ts.length = maxMessagesPerHour)
    (hpair : ts.Pairwise (fun a b => b - a < hourSeconds))
    (hwin : ∀ u ∈ ts, now - u < hourSeconds)
    (hgap : ∀ u ∈ ts, hourSeconds < now2 - u) :
    (runUplinks d sf ts Stack.init).1 = true ∧
    (check_duty_cycle d now (runUplinks d sf ts Stack.init).2).1 = false ∧
    (check_duty_cycle d now2 (runUplinks d sf ts Stack.init).2).1 = true := by
  have hinit : getLedger Stack.init d = [] := rfl
  obtain ⟨hok, hled⟩ := runUplinks_ok d sf ts Stack.init
    (by rw [hinit]; intro x hx; exact absurd hx (List.not_mem_nil x))
    hpair (by rw [hinit, hlen]; simp)
  rw [hinit, List.nil_append] at hled
  refine ⟨hok, ?_, ?_⟩
  · rw [check_duty_cycle_fst, hled]
    have hkeep : ts.filter (fun u => decide (now - hourSeconds < u)) = ts := by
      apply List.filter_eq_self.mpr
      intro u hu
      have := hwin u hu
      simp only [decide_eq_true_eq]
      omega
    rw [hkeep, hlen]
    simp
  · rw [check_duty_cycle_fst, hled]
    have hdrop : ts.filter (fun u => decide (now2 - hourSeconds < u)) = [] := by
      apply List.filter_eq_nil_iff.mpr
      intro u hu
      have := hgap u hu
      simp only [decide_eq_true_eq]
      omega
    rw [hdrop]
    simp [maxMessagesPerHour]

/-- Claim C3 witness: ten uplinks of device 1 at times 0,60,…,540 s all pass
the duty cycle; the check at 600 s then fails, and the check at 4200 s (more
than an hour past every transmission) passes again. -/
theorem C3_witness :
    (runUplinks 1 7 [0, 60, 120, 180, 240, 300, 360, 420, 480, 540] Stack.init).1 = true ∧
    (check_duty_cycle 1 600
      (runUplinks 1 7 [0, 60, 120, 180, 240, 300, 360, 420, 480, 540] Stack.init).2).1 = false ∧
    (check_duty_cycle 1 4200
      (runUplinks 1 7 [0, 60, 120, 180, 240, 300, 360, 420, 480, 540] Stack.init).2).1 = true :=
  C3_duty_cycle_throttling 1 7 [0, 60, 120, 180, 240, 300, 360, 420, 480, 540]
    600 4200 (by decide) (by decide) (by decide) (by decide)

/-! ## Claim C7 -/

/-- C7: the status recomputed at the end of each per-device step iteration
keeps never-seen devices ONLINE (grace period), marks a device OFFLINE exactly
when its staleness strictly exceeds the 30-minute threshold, and otherwise
marks it ONLINE; the per-device step body applies this recomputation to the
device's (possibly just refreshed) last-contact timestamp. -/
theorem C7_status_recompute (now t : Int) (dr : Draws) (st : RunnerState)
    (dev : Device) :
    updateDeviceStatus now none = DeviceStatus.online ∧
    (offlineThresholdSeconds < now - t →
      updateDeviceStatus now (some t) = DeviceStatus.offline) ∧
    (now - t ≤ offlineThresholdSeconds →
      updateDeviceStatus now (some t) = DeviceStatus.online) ∧
    (processDevice dr st dev).2.1.status =
      updateDeviceStatus st.currentTime (processDevice dr st dev).2.1.lastSeen := by
  refine ⟨rfl, ?_, ?_, ?_⟩
  · intro h
    simp [updateDeviceStatus, h]
  · intro h
    simp [updateDeviceStatus]
    omega
  · simp only [processDevice]
    split <;> first
      | rfl
      | (split <;> rfl)

/-- Claim C7 witness: concrete staleness checks (31 simulated minutes is
OFFLINE, fresh contact and never-seen are ONLINE) plus the step-body status
recomputation at a concrete device. -/
theorem C7_witness :
    updateDeviceStatus 2000 (some 100) = DeviceStatus.offline ∧
    updateDeviceStatus 2000 (some 1999) = DeviceStatus.online ∧
    updateDeviceStatus 2000 none = DeviceStatus.online ∧
    (processDevice sampleDraws sampleState sampleDevice).2.1.status =
      updateDeviceStatus sampleState.currentTime
        (processDevice sampleDraws sampleState sampleDevice).2.1.lastSeen :=
  ⟨(C7_status_recompute 2000 100 sampleDraws sampleState sampleDevice).2.1 (by norm_num [offlineThresholdSeconds]),
   (C7_status_recompute 2000 1999 sampleDraws sampleState sampleDevice).2.2.1 (by norm_num [offlineThresholdSeconds]),
   (C7_status_recompute 2000 1999 sampleDraws sampleState sampleDevice).1,
   (C7_status_recompute 2000 1999 sampleDraws sampleState sampleDevice).2.2.2⟩

/-! ## Claim C10 -/

/-- C10: `reset` clears the MAC-layer stack, the last-level and last-seen
caches, and resets the simulated clock, but leaves the water-level override
map and the running flag untouched; an override installed before the reset
still replaces the traffic-generator value for its device in the next step's
per-device processing. -/
theorem C10_reset_frame (wallNow : Int) (st : RunnerState) (dr : Draws)
    (dev : Device) (v : ℝ)
    (h : st.waterLevelOverrides.lookup dev.id = some v) :
    (reset wallNow st).waterLevelOverrides = st.waterLevelOverrides ∧
    (reset wallNow st).isRunning = st.isRunning ∧
    (reset wallNow st).stack = Stack.init ∧
    (reset wallNow st).deviceLastLevels = [] ∧
    (reset wallNow st).deviceLastSeen = [] ∧
    (reset wallNow st).currentTime = wallNow ∧
    (processDevice dr (reset wallNow st) dev).1.waterLevelCm = v := by
  refine ⟨rfl, rfl, rfl, rfl, rfl, rfl, ?_⟩
  simp [processDevice, reset, h]

/-- Claim C10 witness: a 60 cm override for device 1 survives `reset` and is
the water level of the reading produced for device 1 afterwards. -/
theorem C10_witness :
    (reset 500 sampleState).waterLevelOverrides = sampleState.waterLevelOverrides ∧
    (reset 500 sampleState).isRunning = sampleState.isRunning ∧
    (reset 500 sampleState).stack = Stack.init ∧
    (reset 500 sampleState).deviceLastLevels = [] ∧
    (reset 500 sampleState).deviceLastSeen = [] ∧
    (reset 500 sampleState).currentTime = 500 ∧
    (processDevice sampleDraws (reset 500 sampleState) sampleDevice).1.waterLevelCm = 60 :=
  C10_reset_frame 500 sampleState sampleDraws sampleDevice 60 rfl

/-! ## Claim C5 -/

theorem calculate_per_valid (snr : ℝ) (sf : Int) (th : ℝ)
    (hth : sensitivityThreshold sf = some th) :
    calculate_per snr sf =
      min 1 (max 0 (if snr < th then 1 / (1 + Real.exp (2 * (snr - th)))
        else 0.01 * Real.exp (-0.5 * (snr - th)))) := by
  simp [calculate_per, hth]

/-- The unclamped PER formula is antitone in the SNR for a fixed threshold,
including across the logistic/exponential branch boundary. -/
theorem per_formula_antitone (th x y : ℝ) (hxy : x ≤ y) :
    (if y < th then 1 / (1 + Real.exp (2 * (y - th)))
      else 0.01 * Real.exp (-0.5 * (y - th))) ≤
    (if x < th then 1 / (1 + Real.exp (2 * (x - th)))
      else 0.01 * Real.exp (-0.5 * (x - th))) := by
  by_cases hy : y < th
  · have hx : x < th := lt_of_le_of_lt hxy hy
    rw [if_pos hy, if_pos hx]
    apply one_div_le_one_div_of_le
    · positivity
    · have : Real.exp (2 * (x - th)) ≤ Real.exp (2 * (y - th)) :=
        Real.exp_le_exp.mpr (by linarith)
      linarith
  · rw [if_neg hy]
    by_cases hx : x < th
    · rw [if_pos hx]
      have h1 : Real.exp (-0.5 * (y - th)) ≤ 1 :=
        Real.exp_le_one_iff.mpr (by push_neg at hy; nlinarith)
      have h2 : (0.01 : ℝ) * Real.exp (-0.5 * (y - th)) ≤ 0.01 := by
        nlinarith [Real.exp_pos (-0.5 * (y - th))]
      have h3 : Real.exp (2 * (x - th)) < 1 :=
        Real.exp_lt_one_iff.mpr (by nlinarith)
      have h4 : (1 : ℝ) / 2 ≤ 1 / (1 + Real.exp (2 * (x - th))) := by
        apply one_div_le_one_div_of_le
        · positivity
        · linarith
      linarith
    · rw [if_neg hx]
      have : Real.exp (-0.5 * (y - th)) ≤ Real.exp (-0.5 * (x - th)) :=
        Real.exp_le_exp.mpr (by linarith)
      nlinarith

theorem sensitivityThreshold_invalid (sf : Int) (h : sf < 7 ∨ 12 < sf) :
    sensitivityThreshold sf = none := by
  unfold sensitivityThreshold
  rw [if_neg (by omega : ¬sf = 7), if_neg (by omega : ¬sf = 8),
    if_neg (by omega : ¬sf = 9), if_neg (by omega : ¬sf = 10),
    if_neg (by omega : ¬sf = 11), if_neg (by omega : ¬sf = 12)]

theorem calculate_per_range (snr : ℝ) (sf : Int) :
    0 ≤ calculate_per snr sf ∧ calculate_per snr sf ≤ 1 := by
  unfold calculate_per
  cases h : sensitivityThreshold sf with
  | none => norm_num
  | some th =>
    constructor
    · exact le_min (by norm_num) (le_max_left 0 _)
    · exact min_le_left _ _

/-- C5: for a fixed valid spreading factor (7–12) the packet error rate is
monotonically non-increasing in the SNR, including across the branch boundary
at the sensitivity threshold; the result always lies in `[0,1]`; and every
spreading factor outside 7–12 yields exactly `1.0`. -/
theorem C5_per_monotone (sf : Int) (snr1 snr2 : ℝ) :
    (7 ≤ sf → sf ≤ 12 → snr1 ≤ snr2 →
      calculate_per snr2 sf ≤ calculate_per snr1 sf) ∧
    (0 ≤ calculate_per snr1 sf ∧ calculate_per snr1 sf ≤ 1) ∧
    ((sf < 7 ∨ 12 < sf) → calculate_per snr1 sf = 1) := by
  refine ⟨?_, calculate_per_range snr1 sf, ?_⟩
  · intro h7 h12 hle
    obtain ⟨th, hth⟩ : ∃ th, sensitivityThreshold sf = some th := by
      interval_cases sf <;> exact ⟨_, rfl⟩
    rw [calculate_per_valid snr1 sf th hth, calculate_per_valid snr2 sf th hth]
    exact min_le_min le_rfl (max_le_max le_rfl (per_formula_antitone th snr1 snr2 hle))
  · intro h
    simp [calculate_per, sensitivityThreshold_invalid sf h]

/-- Claim C5 witness: at SF 7, raising the SNR from 0 dB to 1 dB does not
increase the PER; the PER at 0 dB lies in `[0,1]`; SF 13 yields PER 1. -/
theorem C5_witness :
    calculate_per 1 7 ≤ calculate_per 0 7 ∧
    (0 ≤ calculate_per 0 7 ∧ calculate_per 0 7 ≤ 1) ∧
    calculate_per 0 13 = 1 :=
  ⟨(C5_per_monotone 7 0 1).1 (by norm_num) (by norm_num) (by norm_num),
   (C5_per_monotone 7 0 1).2.1,
   (C5_per_monotone 13 0 0).2.2 (by norm_num)⟩

/-! ## Claim C6 -/

/-- C6: with the shadowing draw forced to zero and a fixed positive path-loss
exponent, the path loss is strictly increasing in the distance on the
unclamped domain `d ≥ d0`, every distance at or below the reference minimum
`d0 = 1 m` is clamped to yield exactly `PL0`, and in particular
`pathLoss(d0) = PL0`. -/
theorem C6_path_loss_increasing (n dist1 dist2 : ℝ) :
    (0 < n → d0 ≤ dist1 → dist1 < dist2 →
      calculate_path_loss dist1 n 0 < calculate_path_loss dist2 n 0) ∧
    (dist1 ≤ d0 → calculate_path_loss dist1 n 0 = PL0) ∧
    calculate_path_loss d0 n 0 = PL0 := by
  have hexpand : ∀ x X : ℝ, calculate_path_loss x n X =
      PL0 + 10 * n * Real.logb 10 ((if x < d0 then d0 else x) / d0) + X :=
    fun x X => rfl
  refine ⟨?_, ?_, ?_⟩
  · intro hn h1 h12
    have hd1 : ¬dist1 < d0 := not_lt.mpr h1
    have hd2 : ¬dist2 < d0 := not_lt.mpr (le_trans h1 (le_of_lt h12))
    rw [hexpand, hexpand, if_neg hd1, if_neg hd2]
    have h1' : (0 : ℝ) < dist1 := by
      simp only [d0] at h1
      linarith
    have hlog : Real.logb 10 (dist1 / d0) < Real.logb 10 (dist2 / d0) := by
      simp only [d0, div_one]
      exact Real.logb_lt_logb (by norm_num) h1' h12
    nlinarith
  · intro h1
    rw [hexpand]
    have hclamp : (if dist1 < d0 then d0 else dist1) = d0 := by
      rcases lt_or_eq_of_le h1 with h | h
      · rw [if_pos h]
      · subst h
        rw [if_neg (lt_irrefl _)]
    rw [hclamp, div_self (by norm_num [d0] : (d0 : ℝ) ≠ 0)]
    simp [Real.logb_one]
  · rw [hexpand, if_neg (lt_irrefl d0), div_self (by norm_num [d0] : (d0 : ℝ) ≠ 0)]
    simp [Real.logb_one]

/-- Claim C6 witness: with exponent 3.5 and zero shadowing, the path loss at
10 m strictly exceeds the path loss at 1 m, and at the reference distance the
path loss is the reference loss `PL0 = 40` dB. -/
theorem C6_witness :
    calculate_path_loss 1 3.5 0 < calculate_path_loss 10 3.5 0 ∧
    calculate_path_loss d0 3.5 0 = PL0 :=
  ⟨(C6_path_loss_increasing 3.5 1 10).1 (by norm_num) (by norm_num [d0]) (by norm_num),
   (C6_path_loss_increasing 3.5 1 10).2.2⟩

/-! ## Claim C8 -/

/-- Claim C8 counterexample: in a concrete step whose commit fails, the
step's writes are discarded, but the error is swallowed — `step` returns
normally (`Except.ok ()`) to its caller instead of surfacing the failure; the
same step with a successful commit would have persisted one reading, so real
pending writes were present. -/
theorem C8_counterexample :
    (step sampleDraws none true true sampleState sampleDb).1 = Except.ok () ∧
    (step sampleDraws none true true sampleState sampleDb).2.2 = sampleDb ∧
    (step sampleDraws none true false sampleState sampleDb).2.2.readings.length = 1 :=
  ⟨rfl, rfl, rfl⟩

/-- C8 (amended): when the end-of-step commit fails, the step's database
writes are rolled back (the stored data is unchanged), the runner does not
crash, and the in-memory runner state — including the MAC-layer history — is
exactly what it would have been under a successful commit; however the
failure is caught and logged inside `step` and is NOT re-raised to the
caller: `step` returns normally. -/
theorem C8_commit_failure_contained (dr : Draws) (timeDeltaSeconds : Option Int)
    (force : Bool) (st : RunnerState) (db : Db) :
    (step dr timeDeltaSeconds force true st db).1 = Except.ok () ∧
    (step dr timeDeltaSeconds force true st db).2.2 = db ∧
    (step dr timeDeltaSeconds force true st db).2.1 =
      (step dr timeDeltaSeconds force false st db).2.1 := by
  simp only [step]
  split
  · exact ⟨rfl, rfl, rfl⟩
  · exact ⟨rfl, rfl, rfl⟩

/-! ## Claim C9 -/

theorem processDevice_currentTime (dr : Draws) (st : RunnerState) (dev : Device) :
    (processDevice dr st dev).2.2.currentTime = st.currentTime := by
  simp only [processDevice]
  split <;> first
    | rfl
    | (split <;> rfl)

/-- Folding the per-device loop body appends exactly one reading per device
and never touches the simulated clock. -/
theorem foldl_stepFold (dr : Draws) :
    ∀ (devs : List Device) (acc : List Reading × List Device × RunnerState),
      (devs.foldl (stepFold dr) acc).1.length = acc.1.length + devs.length ∧
      (devs.foldl (stepFold dr) acc).2.2.currentTime = acc.2.2.currentTime := by
  intro devs
  induction devs with
  | nil => intro acc; simp
  | cons d ds ih =>
    intro acc
    simp only [List.foldl_cons]
    obtain ⟨ihlen, ihtime⟩ := ih (stepFold dr acc d)
    have hsteplen : (stepFold dr acc d).1.length = acc.1.length + 1 := by
      simp [stepFold]
    constructor
    · rw [ihlen, hsteplen]
      simp only [List.length_cons]
      omega
    · rw [ihtime]
      exact processDevice_currentTime dr acc.2.2 d

/-- Claim C9 counterexample: `step` does not reject invalid step sizes.  A
manual forced step of 0 seconds still processes the (single online) device
and persists one reading, and a manual forced step of −10 seconds moves the
simulated clock backwards to −10. -/
theorem C9_counterexample :
    (step sampleDraws (some 0) true false sampleState sampleDb).2.2.readings.length = 1 ∧
    (step sampleDraws (some (-10)) true false sampleState sampleDb).2.1.currentTime = -10 := by
  refine ⟨rfl, ?_⟩
  have hstep : (step sampleDraws (some (-10)) true false sampleState sampleDb).2.1 =
      ((sampleDb.devices.filter (fun d => decide (d.status = DeviceStatus.online))).foldl
        (stepFold sampleDraws)
        ([], [], { sampleState with
          currentTime := sampleState.currentTime +
            ((some (-10) : Option Int)).getD transmissionInterval })).2.2 := rfl
  rw [hstep,
    (foldl_stepFold sampleDraws
      (sampleDb.devices.filter (fun d => decide (d.status = DeviceStatus.online)))
      ([], [], { sampleState with
        currentTime := sampleState.currentTime +
          ((some (-10) : Option Int)).getD transmissionInterval })).2]
  rfl

/-- C9 (amended): `SimulatorRunner.step` performs no validation of the step
size: whenever the step runs (the runner is running or `force` is set), the
simulated clock is advanced by exactly the given delta — zero or negative
included — and every online device is processed, emitting one reading each;
zero/negative step sizes are only prevented upstream by the UI slider
(minimum 60 s), not by the engine. -/
theorem C9_step_no_validation (dr : Draws) (delta : Int) (force : Bool)
    (st : RunnerState) (db : Db)
    (h : (st.isRunning || force) = true) :
    (step dr (some delta) force false st db).2.1.currentTime = st.currentTime + delta ∧
    (step dr (some delta) force false st db).2.2.readings.length =
      db.readings.length +
        (db.devices.filter (fun d => decide (d.status = DeviceStatus.online))).length := by
  have hcond : (!st.isRunning && !force) = false := by
    cases hr : st.isRunning <;> cases hf : force <;> simp_all
  simp only [step, hcond, Bool.false_eq_true, if_neg, ite_false]
  obtain ⟨hlen, htime⟩ := foldl_stepFold dr
    (db.devices.filter (fun d => decide (d.status = DeviceStatus.online)))
    ([], [], { st with currentTime := st.currentTime + (some delta).getD transmissionInterval })
  constructor
  · rw [htime]
    rfl
  · simp only [List.length_append, hlen, List.length_nil]
    omega

/-- Claim C9 amended witness: a concrete forced step of 120 s advances the
clock to 120 and persists a reading for the single online device. -/
theorem C9_witness :
    (step sampleDraws (some 120) true false sampleState sampleDb).2.1.currentTime =
      sampleState.currentTime + 120 ∧
    (step sampleDraws (some 120) true false sampleState sampleDb).2.2.readings.length =
      sampleDb.readings.length +
        (sampleDb.devices.filter (fun d => decide (d.status = DeviceStatus.online))).length :=
  C9_step_no_validation sampleDraws 120 true sampleState sampleDb rfl

end LorawanSim
